import Mathlib

set_option linter.unusedVariables false

/-! Shallow embedding of the Hobgoblin firmware application core
    (src/Firmware/src/main.cpp): the application register map, the
    pulse-train engine (repeating timer plus one-shot pulse-width alarm),
    the ADC sampling drain callback, the PWM configuration handlers, the
    reset hook and the enable/disable coordinator.  Hardware primitives
    from the pico-sdk and the HarpCore runtime are modelled at their
    interface: machine integers are Nat with explicit reduction modulo
    2 ^ 32 or bit masks where the C code relies on a fixed width, replies
    emitted over the host link are accumulated in a list, and a repeating
    timer is represented by its delay and a Boolean standing for a nonzero
    alarm_id (a pending alarm). -/

/-- Reply kinds of HarpCore.send_harp_reply used by the application core. -/
inductive MsgType
  | EVENT
  | WRITE
  | WRITE_ERROR
deriving DecidableEq

/-- A reply emitted on the host link.  Replies sent without an explicit
    timestamp argument are stamped by HarpCore with the current device time,
    so every reply carries the time of the call that emitted it. -/
structure Reply where
  mtype : MsgType
  address : Nat
  timestamp : Nat
deriving DecidableEq

/-- First application register address (register 32, di_state). -/
def APP_REG_START_ADDRESS : Nat := 32

/-- Base pin of the digital-output bank. -/
def DO0_PIN : Nat := 15

/-- All bits of a 32-bit word. -/
def mask32 : Nat := 2 ^ 32 - 1

/-- gpio_set_mask on the 32-bit output port. -/
def gpio_set_mask (g m : Nat) : Nat := (g ||| (m % 2 ^ 32)) % 2 ^ 32

/-- gpio_clr_mask on the 32-bit output port. -/
def gpio_clr_mask (g m : Nat) : Nat := g &&& (mask32 ^^^ (m % 2 ^ 32))

/-- One pulse-train slot (struct pulse_train_t): the repeating timer state
    (delay_us, and a Boolean standing for alarm_id being nonzero, that is,
    a pending repeating alarm) plus the train parameters. -/
structure pulse_train_t where
  timer_delay_us : Int
  timer_armed : Bool
  output_mask : Nat
  pulse_width_us : Nat
  pulse_period_us : Nat
  pulse_count : Nat
deriving DecidableEq

/-- The application register map (struct app_regs_t).  Arrays are flattened
    into one field per cell; each field holds the register value as a Nat
    below 2 ^ (8 * width). -/
structure app_regs_t where
  di_state : Nat
  do_set : Nat
  do_clear : Nat
  do_toggle : Nat
  do_state : Nat
  start_pulse_train0 : Nat
  start_pulse_train1 : Nat
  start_pulse_train2 : Nat
  start_pulse_train3 : Nat
  stop_pulse_train : Nat
  analog_data0 : Nat
  analog_data1 : Nat
  analog_data2 : Nat
  pwm_config0 : Nat
  pwm_config1 : Nat
  pwm_stop : Nat
deriving DecidableEq

/-- The device state visible to the application core: the register map, the
    pool of 256 pulse-train slots indexed by raw mask byte, the GPIO output
    port and interrupt enable, the ADC/DMA sampling pipeline status, the PWM
    slice, the cached events_active flag of the coordinator, and the list of
    replies emitted so far.  The two dma busy fields abstract the hardware
    abort handshake: the value is the number of abort rounds the channel
    still reports busy for before an abort request lands (pico-sdk issue
    923: dma_channel_abort does not wait for CHAN_ABORT). -/
structure DeviceState where
  app_regs : app_regs_t
  pulse_train_timers : Fin 256 → pulse_train_t
  gpio_out : Nat
  gpio_irq_enabled : Bool
  adc_vals0 : Nat
  adc_vals1 : Nat
  adc_vals2 : Nat
  adc_running : Bool
  adc_fifo_empty : Bool
  dma_ctrl_busy : Nat
  dma_sample_busy : Nat
  adc_timer_armed : Bool
  adc_timer_delay_us : Int
  pwm_enabled : Bool
  pwm_wrap : Nat
  pwm_level : Nat
  events_active : Bool
  replies : List Reply

/-- HarpCore.send_harp_reply: append one reply stamped with the current
    device time. -/
def send_harp_reply (t : MsgType) (addr : Nat) (now : Nat) (s : DeviceState) :
    DeviceState :=
  { s with replies := s.replies ++ [⟨t, addr, now⟩] }

/-- pico-sdk cancel_repeating_timer: returns whether an alarm was pending
    and clears alarm_id. -/
def cancel_repeating_timer (t : pulse_train_t) : Bool × pulse_train_t :=
  (t.timer_armed, { t with timer_armed := false })

/-- The mask byte extracted from the first start_pulse_train word after the
    payload copy: (uint8_t)(app_regs.start_pulse_train[0] & 0xFF). -/
def start_train_mask (w : Nat) : Nat := (w % 2 ^ 32) &&& 0xFF

/-- Slot index for a mask byte (the C code indexes pulse_train_timers by the
    uint8_t mask value). -/
def train_index (m : Nat) : Fin 256 := ⟨m % 256, Nat.mod_lt _ (by norm_num)⟩

/-- pulse_callback: the one-shot pulse-width alarm.  Clears the output bits,
    records the mask in do_clear, raises the pulse-ended event, and when the
    repeating timer carries the stop sentinel (delay_us equal to zero) marks
    the timer cancelled, records the mask in stop_pulse_train and raises the
    train-stopped event.  The slot the alarm owns is addressed by its pool
    index i. -/
def pulse_callback (i : Fin 256) (now : Nat) (s : DeviceState) : DeviceState :=
  let pt := s.pulse_train_timers i
  let s1 := { s with
    app_regs := { s.app_regs with do_clear := pt.output_mask },
    gpio_out := gpio_clr_mask s.gpio_out (pt.output_mask <<< DO0_PIN) }
  let s2 := send_harp_reply .EVENT (APP_REG_START_ADDRESS + 2) now s1
  if pt.timer_delay_us = 0 then
    let s3 := { s2 with
      pulse_train_timers :=
        Function.update s2.pulse_train_timers i { pt with timer_armed := false },
      app_regs := { s2.app_regs with stop_pulse_train := pt.output_mask } }
    send_harp_reply .EVENT (APP_REG_START_ADDRESS + 6) now s3
  else s2

/-- pulse_train_callback: one firing of the repeating timer.  Sets the next
    delay to the negative period, decrements a positive count and stores the
    stop sentinel when it reaches zero, arms the one-shot pulse-width alarm
    (run by the caller as pulse_callback), sets the output bits, raises the
    pulse-started event, and returns whether to keep repeating. -/
def pulse_train_callback (i : Fin 256) (now : Nat) (s : DeviceState) :
    DeviceState × Bool :=
  let pt0 := s.pulse_train_timers i
  let pt1 := { pt0 with timer_delay_us := -(pt0.pulse_period_us : Int) }
  let pt2 :=
    if 0 < pt1.pulse_count then
      { pt1 with
        pulse_count := pt1.pulse_count - 1,
        timer_delay_us :=
          if pt1.pulse_count - 1 = 0 then 0 else pt1.timer_delay_us }
    else pt1
  let s1 := { s with
    pulse_train_timers := Function.update s.pulse_train_timers i pt2,
    gpio_out := gpio_set_mask s.gpio_out (pt2.output_mask <<< DO0_PIN) }
  let s2 := send_harp_reply .EVENT (APP_REG_START_ADDRESS + 1) now s1
  (s2, pt2.timer_delay_us != 0)

/-- One full pulse cycle: the repeating timer fires, then the one-shot
    pulse-width alarm it armed fires (the pulse width is below the period,
    so the alarm lands before the next repeat).  Returns the continue flag
    of the repeating callback. -/
def pulse_cycle (i : Fin 256) (now : Nat) (s : DeviceState) :
    DeviceState × Bool :=
  let r := pulse_train_callback i now s
  (pulse_callback i now r.1, r.2)

/-- Run up to fuel pulse cycles of an armed train.  The Boolean result states
    that the train stopped naturally (the repeating callback returned false)
    within the given number of cycles. -/
def run_pulse_train : Nat → Fin 256 → Nat → DeviceState → DeviceState × Bool
  | 0, _, _, s => (s, false)
  | fuel + 1, i, now, s =>
    let r := pulse_cycle i now s
    if r.2 then run_pulse_train fuel i now r.1 else (r.1, true)

/-- write_start_pulse_train: copy the four payload words into the register
    map, load the slot indexed by the mask byte with the train parameters,
    cancel any pending repeating timer for that slot (raising the
    train-stopped event when one was pending), acknowledge the write, then
    arm the repeating timer with delay zero so the first pulse fires at
    once. -/
def write_start_pulse_train (p0 p1 p2 p3 maddr now : Nat) (s : DeviceState) :
    DeviceState :=
  let s1 := { s with app_regs := { s.app_regs with
    start_pulse_train0 := p0 % 2 ^ 32,
    start_pulse_train1 := p1 % 2 ^ 32,
    start_pulse_train2 := p2 % 2 ^ 32,
    start_pulse_train3 := p3 % 2 ^ 32 } }
  let output_mask := s1.app_regs.start_pulse_train0 &&& 0xFF
  let i := train_index output_mask
  let pt0 := { s1.pulse_train_timers i with
    output_mask := output_mask,
    pulse_width_us := s1.app_regs.start_pulse_train1,
    pulse_period_us := s1.app_regs.start_pulse_train2,
    pulse_count := s1.app_regs.start_pulse_train3 }
  let c := cancel_repeating_timer pt0
  let s2 := { s1 with
    pulse_train_timers := Function.update s1.pulse_train_timers i c.2 }
  let s3 :=
    if c.1 then
      send_harp_reply .EVENT (APP_REG_START_ADDRESS + 6) now
        { s2 with app_regs := { s2.app_regs with
            stop_pulse_train := output_mask } }
    else s2
  let s4 := send_harp_reply .WRITE maddr now s3
  let pool := Function.update s4.pulse_train_timers i
    { s4.pulse_train_timers i with timer_armed := true, timer_delay_us := 0 }
  { s4 with pulse_train_timers := pool }

/-- write_stop_pulse_train: copy the payload byte into the stop register,
    then cancel the repeating timer of the slot indexed by the mask byte
    read from app_regs.start_pulse_train[0] (the C code reads the start
    register, not the byte the stop write just stored), ignore the result of
    the cancellation, and acknowledge the write.  No event is raised. -/
def write_stop_pulse_train (payload maddr now : Nat) (s : DeviceState) :
    DeviceState :=
  let s1 := { s with app_regs :=
    { s.app_regs with stop_pulse_train := payload % 2 ^ 8 } }
  let output_mask := s1.app_regs.start_pulse_train0 &&& 0xFF
  let i := train_index output_mask
  let c := cancel_repeating_timer (s1.pulse_train_timers i)
  let s2 := { s1 with
    pulse_train_timers := Function.update s1.pulse_train_timers i c.2 }
  send_harp_reply .WRITE maddr now s2

/-- adc_callback: the sampling drain timer.  When event reporting is
    disabled it self-cancels without touching the registers; otherwise it
    re-arms for the drain period, snapshots the three DMA-filled buffer
    cells masked to 12 bits into the analog_data registers, and raises the
    analog-data-updated event stamped with the current time (the time of the
    snapshot: the event is sent in the same callback, the firmware has no
    hand-off queue between capture and report). -/
def adc_callback (events_enabled : Bool) (now : Nat) (s : DeviceState) :
    DeviceState × Bool :=
  if !events_enabled then (s, false)
  else
    let s1 := { s with
      adc_timer_delay_us := -4000,
      app_regs := { s.app_regs with
        analog_data0 := s.adc_vals0 &&& 0xFFF,
        analog_data1 := s.adc_vals1 &&& 0xFFF,
        analog_data2 := s.adc_vals2 &&& 0xFFF } }
    (send_harp_reply .EVENT (APP_REG_START_ADDRESS + 7) now s1, true)

/-- write_pwm_config: copy the two payload words into the register map,
    clamp the duty percent to 100, then compute wrap as 1000000 divided by
    the frequency.  The C source performs this division with no guard: a
    zero frequency is a division by zero, undefined behavior, modelled as
    none.  Otherwise the PWM slice is initialised with wrap - 1 (uint32
    wrap-around when wrap is zero), the channel level is set to
    wrap * duty / 100, and the write is acknowledged. -/
def write_pwm_config (p0 p1 maddr now : Nat) (s : DeviceState) :
    Option DeviceState :=
  let s1 := { s with app_regs := { s.app_regs with
    pwm_config0 := p0 % 2 ^ 32, pwm_config1 := p1 % 2 ^ 32 } }
  let frequency := s1.app_regs.pwm_config0
  let duty_percent := s1.app_regs.pwm_config1
  let duty_percent := if 100 < duty_percent then 100 else duty_percent
  if frequency = 0 then none
  else
    let wrap := 1000000 / frequency
    let level := wrap * duty_percent / 100
    let s2 := { s1 with
      pwm_enabled := true,
      pwm_wrap := (wrap + 2 ^ 32 - 1) % 2 ^ 32,
      pwm_level := level }
    some (send_harp_reply .WRITE maddr now s2)

/-- write_pwm_stop: copy the payload byte, disable the PWM slice and
    acknowledge the write. -/
def write_pwm_stop (payload maddr now : Nat) (s : DeviceState) : DeviceState :=
  let s1 := { s with
    app_regs := { s.app_regs with pwm_stop := payload % 2 ^ 8 },
    pwm_enabled := false }
  send_harp_reply .WRITE maddr now s1

/-- app_reset: rewrite the whole register map (pwm_config is set to the
    default 1000 Hz at 50 percent duty, every other field to zero) and
    disable the PWM slice.  Nothing else is touched. -/
def app_reset (s : DeviceState) : DeviceState :=
  { s with
    app_regs :=
      { di_state := 0, do_set := 0, do_clear := 0, do_toggle := 0,
        do_state := 0,
        start_pulse_train0 := 0, start_pulse_train1 := 0,
        start_pulse_train2 := 0, start_pulse_train3 := 0,
        stop_pulse_train := 0,
        analog_data0 := 0, analog_data1 := 0, analog_data2 := 0,
        pwm_config0 := 1000, pwm_config1 := 50, pwm_stop := 0 },
    pwm_enabled := false }

/-- enable_gpio: gate the GPIO bank interrupt. -/
def enable_gpio (enabled : Bool) (s : DeviceState) : DeviceState :=
  { s with gpio_irq_enabled := enabled }

/-- enable_adc_events: start the DMA chain and free-running conversion and
    arm the drain timer.  The busy status of the two DMA channels is an
    environment input tracked by the busy counters. -/
def enable_adc_events (s : DeviceState) : DeviceState :=
  { s with
    adc_running := true,
    adc_timer_armed := true,
    adc_timer_delay_us := -80000 }

/-- The abort loop of disable_adc_events: while either channel reports busy,
    post an abort request to both.  Each round of requests brings each busy
    countdown one step closer to idle. -/
def dma_abort_loop (c b : Nat) : Nat × Nat :=
  if h : c = 0 ∧ b = 0 then (0, 0)
  else dma_abort_loop (c - 1) (b - 1)
termination_by c + b
decreasing_by omega

/-- disable_adc_events: loop aborting both DMA channels until both report
    idle, then stop the ADC and drain its FIFO. -/
def disable_adc_events (s : DeviceState) : DeviceState :=
  let r := dma_abort_loop s.dma_ctrl_busy s.dma_sample_busy
  { s with
    dma_ctrl_busy := r.1,
    dma_sample_busy := r.2,
    adc_running := false,
    adc_fifo_empty := true }

/-- cancel_pulse_timers: cancel the repeating timer of every one of the 256
    slots (the loop body only cancels slot i, so the loop is the pointwise
    cancellation over the pool).  The return value of each cancellation is
    ignored and no reply is emitted. -/
def cancel_pulse_timers (s : DeviceState) : DeviceState :=
  { s with pulse_train_timers := fun i =>
      (cancel_repeating_timer (s.pulse_train_timers i)).2 }

/-- update_app_state: the coordinator, run once per main-loop tick with the
    current events-enabled flag.  On a rising edge it enables the GPIO
    interrupt and the sampling pipeline; on a falling edge it disables the
    GPIO interrupt, stops the sampling pipeline and cancels every pulse
    timer. -/
def update_app_state (events_enabled : Bool) (s : DeviceState) : DeviceState :=
  if !s.events_active && events_enabled then
    let s1 := enable_gpio true s
    let s2 := enable_adc_events s1
    { s2 with events_active := true }
  else if s.events_active && !events_enabled then
    let s1 := enable_gpio false s
    let s2 := disable_adc_events s1
    let s3 := cancel_pulse_timers s2
    { s3 with events_active := false }
  else s

/-- The pulse-started event (register 33, do_set). -/
def evPulseStarted (now : Nat) : Reply :=
  ⟨.EVENT, APP_REG_START_ADDRESS + 1, now⟩

/-- The pulse-ended event (register 34, do_clear). -/
def evPulseEnded (now : Nat) : Reply :=
  ⟨.EVENT, APP_REG_START_ADDRESS + 2, now⟩

/-- The train-stopped event (register 38, stop_pulse_train). -/
def evTrainStopped (now : Nat) : Reply :=
  ⟨.EVENT, APP_REG_START_ADDRESS + 6, now⟩

/-- The register map with every field zero. -/
def zero_regs : app_regs_t :=
  { di_state := 0, do_set := 0, do_clear := 0, do_toggle := 0, do_state := 0,
    start_pulse_train0 := 0, start_pulse_train1 := 0, start_pulse_train2 := 0,
    start_pulse_train3 := 0, stop_pulse_train := 0,
    analog_data0 := 0, analog_data1 := 0, analog_data2 := 0,
    pwm_config0 := 0, pwm_config1 := 0, pwm_stop := 0 }

/-- An idle pulse-train slot. -/
def idle_slot : pulse_train_t :=
  { timer_delay_us := 0, timer_armed := false, output_mask := 0,
    pulse_width_us := 0, pulse_period_us := 0, pulse_count := 0 }

/-- A quiescent device state. -/
def init_state : DeviceState :=
  { app_regs := zero_regs,
    pulse_train_timers := fun _ => idle_slot,
    gpio_out := 0, gpio_irq_enabled := false,
    adc_vals0 := 0, adc_vals1 := 0, adc_vals2 := 0,
    adc_running := false, adc_fifo_empty := true,
    dma_ctrl_busy := 0, dma_sample_busy := 0,
    adc_timer_armed := false, adc_timer_delay_us := 0,
    pwm_enabled := false, pwm_wrap := 0, pwm_level := 0,
    events_active := false, replies := [] }

/-- State for the stop-handler divergence: a train is armed on mask 1 while
    the start register still holds mask 2 from an earlier start write. -/
def s_c1 : DeviceState :=
  { init_state with
    app_regs := { zero_regs with start_pulse_train0 := 2 },
    pulse_train_timers := fun i =>
      if i.val = 1 then
        { idle_slot with timer_armed := true, output_mask := 1 }
      else if i.val = 2 then
        { idle_slot with timer_armed := true, output_mask := 2 }
      else idle_slot }

/-- State for the coordinator counterexample: events are active, slot 5 is
    armed and the DMA channels report busy. -/
def s_c3 : DeviceState :=
  { init_state with
    events_active := true,
    dma_ctrl_busy := 2, dma_sample_busy := 1,
    pulse_train_timers := fun i =>
      if i.val = 5 then
        { idle_slot with timer_armed := true, output_mask := 5 }
      else idle_slot }

/-- State for the pulse-train witness: slot 1 armed with count 3. -/
def s_c4 : DeviceState :=
  { init_state with
    pulse_train_timers := fun i =>
      if i.val = 1 then
        { timer_delay_us := 0, timer_armed := true, output_mask := 1,
          pulse_width_us := 100, pulse_period_us := 1000, pulse_count := 3 }
      else idle_slot }

/-- State for the reset counterexample: a DMA channel reports busy. -/
def s_c9 : DeviceState :=
  { init_state with dma_ctrl_busy := 3 }

/-! Helper lemmas. -/

lemma dma_abort_loop_bounded : ∀ n c b, c + b ≤ n → dma_abort_loop c b = (0, 0) := by
  intro n
  induction n with
  | zero =>
    intro c b h
    have hc : c = 0 := by omega
    have hb : b = 0 := by omega
    subst hc; subst hb
    unfold dma_abort_loop
    simp
  | succ n ih =>
    intro c b h
    unfold dma_abort_loop
    split
    · rfl
    · next hcb => exact ih _ _ (by omega)

/-- The abort loop always drives both channels to idle. -/
lemma dma_abort_loop_idle (c b : Nat) : dma_abort_loop c b = (0, 0) :=
  dma_abort_loop_bounded (c + b) c b le_rfl

lemma pulse_cycle_infinite (i : Fin 256) (now : Nat) (s : DeviceState)
    (h0 : (s.pulse_train_timers i).pulse_count = 0)
    (hp : 0 < (s.pulse_train_timers i).pulse_period_us) :
    (pulse_cycle i now s).1.pulse_train_timers i =
      { s.pulse_train_timers i with
        timer_delay_us := -((s.pulse_train_timers i).pulse_period_us : Int) } ∧
    (pulse_cycle i now s).1.replies =
      s.replies ++ [evPulseStarted now, evPulseEnded now] ∧
    (pulse_cycle i now s).2 = true := by
  have hd : -(((s.pulse_train_timers i).pulse_period_us : Nat) : Int) ≠ 0 := by
    omega
  simp [pulse_cycle, pulse_train_callback, pulse_callback, send_harp_reply,
    Function.update_same, h0, hd, evPulseStarted, evPulseEnded]

lemma pulse_cycle_last (i : Fin 256) (now : Nat) (s : DeviceState)
    (h1 : (s.pulse_train_timers i).pulse_count = 1) :
    (pulse_cycle i now s).1.replies =
      s.replies ++ [evPulseStarted now, evPulseEnded now, evTrainStopped now] ∧
    (pulse_cycle i now s).2 = false := by
  simp [pulse_cycle, pulse_train_callback, pulse_callback, send_harp_reply,
    Function.update_same, h1, evPulseStarted, evPulseEnded, evTrainStopped]

lemma pulse_cycle_step (i : Fin 256) (now : Nat) (s : DeviceState) (c : Nat)
    (hc : (s.pulse_train_timers i).pulse_count = c + 2)
    (hp : 0 < (s.pulse_train_timers i).pulse_period_us) :
    (pulse_cycle i now s).1.pulse_train_timers i =
      { s.pulse_train_timers i with
        pulse_count := c + 1,
        timer_delay_us := -((s.pulse_train_timers i).pulse_period_us : Int) } ∧
    (pulse_cycle i now s).1.replies =
      s.replies ++ [evPulseStarted now, evPulseEnded now] ∧
    (pulse_cycle i now s).2 = true := by
  have hd : -(((s.pulse_train_timers i).pulse_period_us : Nat) : Int) ≠ 0 := by
    omega
  simp [pulse_cycle, pulse_train_callback, pulse_callback, send_harp_reply,
    Function.update_same, hc, hd, evPulseStarted, evPulseEnded]

lemma pulse_train_callback_replies (i : Fin 256) (now : Nat) (s : DeviceState) :
    (pulse_train_callback i now s).1.replies = s.replies ++ [evPulseStarted now] := by
  simp [pulse_train_callback, send_harp_reply, evPulseStarted]

lemma pulse_callback_replies_prefix (i : Fin 256) (now : Nat) (s : DeviceState) :
    ∃ t, (pulse_callback i now s).replies =
      s.replies ++ [evPulseEnded now] ++ t := by
  by_cases hz : (s.pulse_train_timers i).timer_delay_us = 0
  · exact ⟨[evTrainStopped now],
      by simp [pulse_callback, send_harp_reply, hz, evPulseEnded, evTrainStopped]⟩
  · exact ⟨[], by simp [pulse_callback, send_harp_reply, hz, evPulseEnded]⟩

lemma pulse_cycle_replies_prefix (i : Fin 256) (now : Nat) (s : DeviceState) :
    ∃ t, (pulse_cycle i now s).1.replies =
      s.replies ++ [evPulseStarted now, evPulseEnded now] ++ t := by
  obtain ⟨t, ht⟩ :=
    pulse_callback_replies_prefix i now (pulse_train_callback i now s).1
  refine ⟨t, ?_⟩
  simp only [pulse_cycle]
  rw [ht, pulse_train_callback_replies]
  simp


lemma run_pulse_train_succ (fuel : Nat) (i : Fin 256) (now : Nat)
    (s : DeviceState) :
    run_pulse_train (fuel + 1) i now s =
      if (pulse_cycle i now s).2 then
        run_pulse_train fuel i now (pulse_cycle i now s).1
      else ((pulse_cycle i now s).1, true) := rfl

lemma run_pulse_train_pos (now : Nat) :
    ∀ (c : Nat) (i : Fin 256) (s : DeviceState),
    (s.pulse_train_timers i).pulse_count = c + 1 →
    0 < (s.pulse_train_timers i).pulse_period_us →
    (run_pulse_train (c + 1) i now s).2 = true ∧
    (run_pulse_train (c + 1) i now s).1.replies =
      s.replies ++
        (List.replicate (c + 1) [evPulseStarted now, evPulseEnded now]).flatten ++
        [evTrainStopped now] := by
  intro c
  induction c with
  | zero =>
    intro i s hc hp
    obtain ⟨hr, hb⟩ := pulse_cycle_last i now s hc
    rw [run_pulse_train_succ, hb]
    simp [run_pulse_train, hr]
  | succ c ih =>
    intro i s hc hp
    obtain ⟨hslot, hr, hb⟩ := pulse_cycle_step i now s c hc hp
    have hc2 : ((pulse_cycle i now s).1.pulse_train_timers i).pulse_count =
        c + 1 := by rw [hslot]
    have hp2 : 0 <
        ((pulse_cycle i now s).1.pulse_train_timers i).pulse_period_us := by
      rw [hslot]; exact hp
    obtain ⟨ihb, ihr⟩ := ih i (pulse_cycle i now s).1 hc2 hp2
    rw [run_pulse_train_succ, hb]
    refine ⟨by simpa using ihb, ?_⟩
    simp only [if_true]
    rw [ihr, hr]
    simp [List.replicate_succ]

lemma run_pulse_train_infinite (now : Nat) :
    ∀ (n : Nat) (i : Fin 256) (s : DeviceState),
    (s.pulse_train_timers i).pulse_count = 0 →
    0 < (s.pulse_train_timers i).pulse_period_us →
    (run_pulse_train n i now s).2 = false ∧
    (run_pulse_train n i now s).1.replies =
      s.replies ++
        (List.replicate n [evPulseStarted now, evPulseEnded now]).flatten := by
  intro n
  induction n with
  | zero =>
    intro i s hc hp
    simp [run_pulse_train]
  | succ n ih =>
    intro i s hc hp
    obtain ⟨hslot, hr, hb⟩ := pulse_cycle_infinite i now s hc hp
    have hc2 : ((pulse_cycle i now s).1.pulse_train_timers i).pulse_count =
        0 := by rw [hslot]; exact hc
    have hp2 : 0 <
        ((pulse_cycle i now s).1.pulse_train_timers i).pulse_period_us := by
      rw [hslot]; exact hp
    obtain ⟨ihb, ihr⟩ := ih i (pulse_cycle i now s).1 hc2 hp2
    rw [run_pulse_train_succ, hb]
    refine ⟨by simpa using ihb, ?_⟩
    simp only [if_true]
    rw [ihr, hr]
    simp [List.replicate_succ]

/-! Claim theorems. -/

/-- C4: starting a pulse train whose slot carries count c with a valid
    (positive) period yields, for 0 < c, exactly c pulse-started/pulse-ended
    pairs followed by exactly one train-stopped notification, the repeating
    callback reporting natural completion; for count 0 (the only uint32
    value satisfying count at most 0) the train repeats indefinitely, any
    number of cycles producing only started/ended pairs and never a
    train-stopped notification, until an explicit stop is issued. -/
theorem C4_pulse_count_semantics (i : Fin 256) (now : Nat) (s : DeviceState)
    (c : Nat) (hc : (s.pulse_train_timers i).pulse_count = c)
    (hp : 0 < (s.pulse_train_timers i).pulse_period_us) :
    (0 < c →
      (run_pulse_train c i now s).2 = true ∧
      (run_pulse_train c i now s).1.replies =
        s.replies ++
          (List.replicate c [evPulseStarted now, evPulseEnded now]).flatten ++
          [evTrainStopped now]) ∧
    (c = 0 → ∀ n,
      (run_pulse_train n i now s).2 = false ∧
      (run_pulse_train n i now s).1.replies =
        s.replies ++
          (List.replicate n [evPulseStarted now, evPulseEnded now]).flatten) := by
  constructor
  · intro hpos
    obtain ⟨k, rfl⟩ : ∃ k, c = k + 1 := ⟨c - 1, by omega⟩
    exact run_pulse_train_pos now k i s hc hp
  · intro hzero n
    subst hzero
    exact run_pulse_train_infinite now n i s hc hp

/-- C4 witness: slot 1 of the concrete state s_c4 carries count 3 and period
    1000; running three cycles produces three started/ended pairs and one
    train-stopped notification and reports natural completion. -/
theorem C4_pulse_count_semantics_witness :
    (s_c4.pulse_train_timers (train_index 1)).pulse_count = 3 ∧
    0 < (s_c4.pulse_train_timers (train_index 1)).pulse_period_us ∧
    (run_pulse_train 3 (train_index 1) 0 s_c4).2 = true ∧
    (run_pulse_train 3 (train_index 1) 0 s_c4).1.replies =
      s_c4.replies ++
        (List.replicate 3 [evPulseStarted 0, evPulseEnded 0]).flatten ++
        [evTrainStopped 0] :=
  ⟨by decide, by decide,
    (C4_pulse_count_semantics (train_index 1) 0 s_c4 3 (by decide) (by decide)).1
      (by decide)⟩

/-- C5: a start-pulse-train write for mask m first cancels the armed train of
    slot m, emitting a train-stopped notification, then emits the write
    acknowledgement and only then arms the new train, so the train-stopped
    notification precedes every pulse-started notification of the new train
    (here witnessed by composing the handler with the first firing of the
    new repeating timer); when no train was armed for that mask the handler
    emits no train-stopped notification. -/
theorem C5_cancel_before_arm (p0 p1 p2 p3 maddr now : Nat) (s : DeviceState) :
    (write_start_pulse_train p0 p1 p2 p3 maddr now s).replies =
      s.replies ++
        (if (s.pulse_train_timers (train_index (start_train_mask p0))).timer_armed
         then [evTrainStopped now] else []) ++
        [⟨.WRITE, maddr, now⟩] ∧
    ∃ t, (pulse_cycle (train_index (start_train_mask p0)) now
        (write_start_pulse_train p0 p1 p2 p3 maddr now s)).1.replies =
      s.replies ++
        (if (s.pulse_train_timers (train_index (start_train_mask p0))).timer_armed
         then [evTrainStopped now] else []) ++
        [⟨.WRITE, maddr, now⟩] ++ [evPulseStarted now] ++
        ([evPulseEnded now] ++ t) := by
  have h1 : (write_start_pulse_train p0 p1 p2 p3 maddr now s).replies =
      s.replies ++
        (if (s.pulse_train_timers (train_index (start_train_mask p0))).timer_armed
         then [evTrainStopped now] else []) ++
        [⟨.WRITE, maddr, now⟩] := by
    by_cases ha :
        (s.pulse_train_timers (train_index (start_train_mask p0))).timer_armed = true
    all_goals
      have ha' := ha
      simp only [start_train_mask] at ha'
      norm_num at ha'
    · simp [write_start_pulse_train, cancel_repeating_timer, send_harp_reply,
        start_train_mask, ha, ha', evTrainStopped]
    · simp [write_start_pulse_train, cancel_repeating_timer, send_harp_reply,
        start_train_mask, ha, ha']
  refine ⟨h1, ?_⟩
  obtain ⟨t0, ht0⟩ := pulse_cycle_replies_prefix
    (train_index (start_train_mask p0)) now
    (write_start_pulse_train p0 p1 p2 p3 maddr now s)
  refine ⟨t0, ?_⟩
  rw [ht0, h1]
  simp

/-- C1: divergence of the stop handler from the claim, evaluated at a
    concrete state.  The host writes mask 1 to the stop register while a
    train is armed on slot 1 and the start register still holds mask 2: the
    handler cancels slot 2 (it reads the mask from start_pulse_train[0],
    not from the byte the stop write carried), leaves slot 1 armed, and
    emits only the write acknowledgement, raising no train-stopped
    notification although an armed timer (slot 2) was cancelled. -/
theorem C1_stop_uses_start_mask_and_is_silent :
    ((write_stop_pulse_train 1 38 0 s_c1).pulse_train_timers
        (train_index 1)).timer_armed = true ∧
    ((write_stop_pulse_train 1 38 0 s_c1).pulse_train_timers
        (train_index 2)).timer_armed = false ∧
    s_c1.app_regs.start_pulse_train0 = 2 ∧
    (s_c1.pulse_train_timers (train_index 2)).timer_armed = true ∧
    (write_stop_pulse_train 1 38 0 s_c1).app_regs.stop_pulse_train = 1 ∧
    (write_stop_pulse_train 1 38 0 s_c1).replies =
      [⟨.WRITE, 38, 0⟩] := by
  refine ⟨?_, ?_, rfl, rfl, rfl, rfl⟩ <;> decide

/-- C2: the PWM configuration handler evaluated at frequency zero.  The C
    source divides 1000000 by the frequency with no guard, so the write
    with frequencyHz equal to 0 reaches a division by zero (undefined
    behavior, modelled as none); no error-reply path exists anywhere in the
    handler. -/
theorem C2_division_by_zero_unguarded :
    write_pwm_config 0 50 40 0 init_state = none := rfl

/-- C3 counterexample: in the concrete state s_c3 events are active and a
    train is armed on slot 5; evaluating the coordinator with the flag now
    false cancels that armed slot but emits no reply at all, so no
    train-stopped notification is raised for the cancelled active slot,
    contradicting the claim that each such cancellation raises its own
    notification. -/
theorem C3_silent_cancellation_cex :
    s_c3.events_active = true ∧
    (s_c3.pulse_train_timers (train_index 5)).timer_armed = true ∧
    ((update_app_state false s_c3).pulse_train_timers
        (train_index 5)).timer_armed = false ∧
    (update_app_state false s_c3).replies = [] := by
  refine ⟨rfl, ?_, ?_, ?_⟩ <;> decide

/-- C3 (amended): when events are active and the flag is read false, the
    coordinator disables the digital-input-change interrupt, aborts both DMA
    channels in a loop until both report idle, stops the ADC and drains its
    FIFO, and cancels every one of the 256 pulse-train slots
    unconditionally; the cancellations are silent, no reply of any kind
    being emitted by the transition. -/
theorem C3_disable_transition (s : DeviceState) (h : s.events_active = true) :
    (update_app_state false s).gpio_irq_enabled = false ∧
    (update_app_state false s).dma_ctrl_busy = 0 ∧
    (update_app_state false s).dma_sample_busy = 0 ∧
    (update_app_state false s).adc_running = false ∧
    (update_app_state false s).adc_fifo_empty = true ∧
    (∀ i, ((update_app_state false s).pulse_train_timers i).timer_armed =
      false) ∧
    (update_app_state false s).replies = s.replies ∧
    (update_app_state false s).events_active = false := by
  simp [update_app_state, h, enable_gpio, disable_adc_events,
    cancel_pulse_timers, cancel_repeating_timer, dma_abort_loop_idle]

/-- C3 witness: the amended transition applied to the concrete state s_c3. -/
theorem C3_disable_transition_witness :
    s_c3.events_active = true ∧
    (update_app_state false s_c3).dma_ctrl_busy = 0 ∧
    (update_app_state false s_c3).dma_sample_busy = 0 ∧
    (update_app_state false s_c3).replies = s_c3.replies ∧
    (update_app_state false s_c3).events_active = false :=
  ⟨rfl, (C3_disable_transition s_c3 rfl).2.1,
    (C3_disable_transition s_c3 rfl).2.2.1,
    (C3_disable_transition s_c3 rfl).2.2.2.2.2.2.1,
    (C3_disable_transition s_c3 rfl).2.2.2.2.2.2.2⟩

/-- C6: every analog-data-updated notification carries the capture
    timestamp.  The drain callback snapshots the buffer and emits the
    notification in the same call, stamped with the time now of that call,
    so the reported timestamp is the time at which the masked snapshot was
    written into the analog_data registers; no later dequeue or report step
    exists that could re-stamp it. -/
theorem C6_analog_event_capture_timestamp (now : Nat) (s : DeviceState) :
    (adc_callback true now s).1.replies =
      s.replies ++ [⟨.EVENT, APP_REG_START_ADDRESS + 7, now⟩] ∧
    (adc_callback true now s).1.app_regs.analog_data0 =
      s.adc_vals0 &&& 0xFFF ∧
    (adc_callback true now s).1.app_regs.analog_data1 =
      s.adc_vals1 &&& 0xFFF ∧
    (adc_callback true now s).1.app_regs.analog_data2 =
      s.adc_vals2 &&& 0xFFF := by
  simp [adc_callback, send_harp_reply]

/-- C7: every value the sampling drain callback writes into the three
    analog-data register cells is the corresponding buffer cell masked to
    its 12 least significant bits, hence strictly below 4096. -/
theorem C7_analog_data_masked_12bit (now : Nat) (s : DeviceState) :
    (adc_callback true now s).1.app_regs.analog_data0 =
      s.adc_vals0 &&& 0xFFF ∧
    (adc_callback true now s).1.app_regs.analog_data1 =
      s.adc_vals1 &&& 0xFFF ∧
    (adc_callback true now s).1.app_regs.analog_data2 =
      s.adc_vals2 &&& 0xFFF ∧
    (adc_callback true now s).1.app_regs.analog_data0 < 4096 ∧
    (adc_callback true now s).1.app_regs.analog_data1 < 4096 ∧
    (adc_callback true now s).1.app_regs.analog_data2 < 4096 := by
  have h0 : s.adc_vals0 &&& 0xFFF ≤ 0xFFF := Nat.and_le_right
  have h1 : s.adc_vals1 &&& 0xFFF ≤ 0xFFF := Nat.and_le_right
  have h2 : s.adc_vals2 &&& 0xFFF ≤ 0xFFF := Nat.and_le_right
  refine ⟨?_, ?_, ?_, ?_, ?_, ?_⟩ <;>
    simp [adc_callback, send_harp_reply] <;> omega

/-- C8: a PWM-configuration write with a duty percent above 100 (and a
    nonzero frequency, so the unguarded division is defined) clamps the duty
    used for the level computation to exactly 100, making the computed
    channel level equal the full wrap value 1000000 / frequency, and the
    write is acknowledged rather than rejected. -/
theorem C8_duty_percent_clamped (p0 p1 maddr now : Nat) (s : DeviceState)
    (h0 : p0 % 2 ^ 32 ≠ 0) (h1 : 100 < p1 % 2 ^ 32) :
    (write_pwm_config p0 p1 maddr now s).map DeviceState.pwm_level =
      some (1000000 / (p0 % 2 ^ 32)) ∧
    (write_pwm_config p0 p1 maddr now s).map DeviceState.replies =
      some (s.replies ++ [⟨.WRITE, maddr, now⟩]) := by
  have h0' := h0
  have h1' := h1
  norm_num at h0' h1'
  constructor
  · simp [write_pwm_config, send_harp_reply, h0', h1']
  · simp [write_pwm_config, send_harp_reply, h0', h1']

/-- C8 witness: frequency 1000, duty 150 on the quiescent state. -/
theorem C8_duty_percent_clamped_witness :
    1000 % 2 ^ 32 ≠ 0 ∧ 100 < 150 % 2 ^ 32 ∧
    (write_pwm_config 1000 150 40 0 init_state).map DeviceState.pwm_level =
      some (1000000 / (1000 % 2 ^ 32)) :=
  ⟨by norm_num, by norm_num,
    (C8_duty_percent_clamped 1000 150 40 0 init_state (by norm_num)
      (by norm_num)).1⟩

/-- C9 counterexample: after the reset hook runs on a state whose control
    DMA channel reports busy, the pwm_config register fields hold 1000 and
    50 rather than zero, and the DMA channel is exactly as busy as before
    (the hook never touches the DMA channels), refuting both the all-fields-
    zero part and the DMA-stopped part of the claim. -/
theorem C9_reset_not_all_zero_cex :
    (app_reset s_c9).app_regs.pwm_config0 = 1000 ∧
    (app_reset s_c9).app_regs.pwm_config1 = 50 ∧
    (1000 : Nat) ≠ 0 ∧
    s_c9.dma_ctrl_busy = 3 ∧
    (app_reset s_c9).dma_ctrl_busy = 3 :=
  ⟨rfl, rfl, by norm_num, rfl, rfl⟩

/-- C9 (amended): after the reset hook runs, every register field is zero
    except pwm_config, which is reset to the defaults of 1000 Hz and 50
    percent duty, and the PWM output is stopped; the DMA transfer channels
    are left untouched by the hook. -/
theorem C9_reset_state (s : DeviceState) :
    (app_reset s).app_regs =
      { zero_regs with pwm_config0 := 1000, pwm_config1 := 50 } ∧
    (app_reset s).pwm_enabled = false ∧
    (app_reset s).dma_ctrl_busy = s.dma_ctrl_busy ∧
    (app_reset s).dma_sample_busy = s.dma_sample_busy ∧
    (app_reset s).adc_running = s.adc_running :=
  ⟨rfl, rfl, rfl, rfl, rfl⟩

/-- C10: the register map changes from interrupt-context callbacks, not
    only from host writes.  Every firing of the one-shot pulse-width alarm
    overwrites the host-writable do_clear field with the owning train mask;
    when the firing takes the natural-stop path (stop sentinel in the
    repeating timer) it also overwrites stop_pulse_train with that mask; and
    the cancel path of the start handler overwrites stop_pulse_train with
    the started mask whenever a train was armed for it. -/
theorem C10_interrupt_context_side_effects (i : Fin 256) (now : Nat)
    (s : DeviceState) (p0 p1 p2 p3 maddr : Nat) :
    (pulse_callback i now s).app_regs.do_clear =
      (s.pulse_train_timers i).output_mask ∧
    ((s.pulse_train_timers i).timer_delay_us = 0 →
      (pulse_callback i now s).app_regs.stop_pulse_train =
        (s.pulse_train_timers i).output_mask) ∧
    ((s.pulse_train_timers
        (train_index (start_train_mask p0))).timer_armed = true →
      (write_start_pulse_train p0 p1 p2 p3 maddr now s).app_regs.stop_pulse_train =
        start_train_mask p0) := by
  refine ⟨?_, ?_, ?_⟩
  · by_cases hz : (s.pulse_train_timers i).timer_delay_us = 0 <;>
      simp [pulse_callback, send_harp_reply, hz]
  · intro hz
    simp [pulse_callback, send_harp_reply, hz]
  · intro ha
    have ha' := ha
    simp only [start_train_mask] at ha'
    norm_num at ha'
    simp [write_start_pulse_train, cancel_repeating_timer, send_harp_reply,
      start_train_mask, ha']

/-- C10 witness: slot 1 of s_c1 is armed with delay zero and mask 1, so the
    one-shot alarm records mask 1 in stop_pulse_train, and a start write for
    mask 1 records mask 1 in stop_pulse_train through its cancel path. -/
theorem C10_interrupt_context_side_effects_witness :
    (pulse_callback (train_index 1) 0 s_c1).app_regs.stop_pulse_train =
      (s_c1.pulse_train_timers (train_index 1)).output_mask ∧
    (write_start_pulse_train 1 2 3 4 37 0 s_c1).app_regs.stop_pulse_train =
      start_train_mask 1 :=
  ⟨(C10_interrupt_context_side_effects (train_index 1) 0 s_c1 1 2 3 4
      37).2.1 (by decide),
   (C10_interrupt_context_side_effects (train_index 1) 0 s_c1 1 2 3 4
      37).2.2 (by decide)⟩
